import Mathlib

/-!
Shallow embedding of the authentication core of the auth0-rocket-rust
repository (src/main.rs): JWT decoding and validation, user and session
persistence in a key-value store, the OAuth callback handler, the CSRF
state string generator, and the request guard resolving a session cookie
to a User.

External collaborators (the sled store, the frank_jwt signature check,
crypto_hash SHA-256, the reqwest HTTP client, the rand sampler) are
modelled as explicit inputs: the outcome of the RS256 signature check is
an `Option JValue` argument (none = any structural or cryptographic
failure), the hex SHA-256 digest is a `String → String` argument, and
the random sampler is a `Nat → Char` argument. Rust panics (unwrap /
expect) are modelled as an explicit `panic` outcome.
-/

namespace Auth0Rocket

/-- Model of `serde_json::Value` restricted to the shapes the program
inspects: null, booleans, integer numbers, strings, arrays, objects. -/
inductive JValue : Type where
  | null : JValue
  | bool (b : Bool) : JValue
  | num (n : Int) : JValue
  | str (s : String) : JValue
  | arr (xs : List JValue) : JValue
  | obj (fields : List (String × JValue)) : JValue

/-- Model of `serde_json::Value::get` on a key: field lookup when the
value is an object, `none` otherwise. -/
def JValue.get (j : JValue) (key : String) : Option JValue :=
  match j with
  | .obj fields => fields.lookup key
  | _ => none

/-- Model of `Value::as_str`: the string when the value is a JSON string. -/
def JValue.as_str (j : JValue) : Option String :=
  match j with
  | .str s => some s
  | _ => none

/-- Model of `Value::as_i64`: the integer when the value is a JSON number
(only integral numbers are modelled). -/
def JValue.as_i64 (j : JValue) : Option Int :=
  match j with
  | .num n => some n
  | _ => none

mutual
/-- Debug rendering of a JSON value, standing in for the Rust
`format!` with the Debug formatter applied to `json.clone()` in
`Auth0JWTPayload::from_json`. Its exact text is never load-bearing. -/
def jsonRepr : JValue → String
  | .null => "Null"
  | .bool b => "Bool(" ++ (if b then "true" else "false") ++ ")"
  | .num n => "Number(" ++ toString n ++ ")"
  | .str s => "String(" ++ s ++ ")"
  | .arr xs => "Array(" ++ jsonReprList xs ++ ")"
  | .obj fields => "Object(" ++ jsonReprFields fields ++ ")"

/-- Renders a list of JSON values, comma separated. -/
def jsonReprList : List JValue → String
  | [] => ""
  | [x] => jsonRepr x
  | x :: xs => jsonRepr x ++ ", " ++ jsonReprList xs

/-- Renders the fields of a JSON object, comma separated. -/
def jsonReprFields : List (String × JValue) → String
  | [] => ""
  | [(k, v)] => k ++ ": " ++ jsonRepr v
  | (k, v) :: xs => k ++ ": " ++ jsonRepr v ++ ", " ++ jsonReprFields xs
end

/-- Modelled from the spec: the error taxonomy of the repository's
`errors` module (declared as `mod errors` in src/main.rs but whose file
is not part of the sources). Variants and payloads follow spec section 7
and the constructor uses visible in src/main.rs. -/
inductive AuthError : Type where
  | MalformedJWT (repr : String) : AuthError
  | Expired : AuthError
  | AudienceMismatch : AuthError
  | IssuerMismatch : AuthError
  | SerializationError (name : String) : AuthError
  | DeserializationError (name : String) : AuthError
deriving DecidableEq

/-- Result of a Rust computation that can also panic (unwrap / expect on
the wrong variant aborts the request instead of returning). -/
inductive RustResult (α : Type) : Type where
  | ok (a : α) : RustResult α
  | err (e : AuthError) : RustResult α
  | panic : RustResult α
deriving DecidableEq

/-- The `Auth0JWTPayload` struct of src/main.rs: the five claims
extracted from the decoded ID-token JSON. -/
structure Auth0JWTPayload : Type where
  email : String
  user_id : String
  exp : Int
  iss : String
  aud : String
deriving DecidableEq

/-- `Auth0JWTPayload::from_json` of src/main.rs: matches on the five
field lookups; if any is absent the result is `MalformedJWT` carrying
the debug rendering of the JSON; when all five are present the Rust code
calls `as_str().unwrap()` / `as_i64().unwrap()`, which panics when a
present field has the wrong JSON type. -/
def Auth0JWTPayload.from_json (json : JValue) : RustResult Auth0JWTPayload :=
  match json.get "email", json.get "user_id", json.get "exp",
        json.get "iss", json.get "aud" with
  | some email, some user_id, some exp_str, some iss, some aud =>
    match email.as_str, user_id.as_str, exp_str.as_i64,
          iss.as_str, aud.as_str with
    | some e, some u, some x, some i, some a =>
      .ok { email := e, user_id := u, exp := x, iss := i, aud := a }
    | _, _, _, _, _ => .panic
  | _, _, _, _, _ => .err (.MalformedJWT (jsonRepr json))

/-- `decode_and_validate_jwt` of src/main.rs. The `decodeResult`
argument is the outcome of the frank_jwt RS256 `decode` call against the
stored public key: `none` models any structural or cryptographic
failure, `some json` the decoded payload JSON. The checks then run in
source order: claim parsing, expiry (strict `<` against `now`), audience,
issuer against `"https://" ++ domain ++ "/"`. -/
def decode_and_validate_jwt (decodeResult : Option JValue) (jwt : String)
    (aud : String) (auth0_domain : String) (now : Int) :
    RustResult Auth0JWTPayload :=
  match decodeResult with
  | none => .err (.MalformedJWT jwt)
  | some json =>
    match Auth0JWTPayload.from_json json with
    | .panic => .panic
    | .err e => .err e
    | .ok payload =>
      if payload.exp < now then .err .Expired
      else if payload.aud ≠ aud then .err .AudienceMismatch
      else if payload.iss ≠ "https://" ++ auth0_domain ++ "/" then
        .err .IssuerMismatch
      else .ok payload

/-- The `User` struct of src/main.rs: the record persisted per provider
user identifier. -/
structure User : Type where
  user_id : String
  email : String
deriving DecidableEq

/-- The `Session` struct of src/main.rs. `raw_jwt` is stored in Rust as
the UTF-8 bytes of the raw ID token (`jwt.as_bytes().to_vec()`); the
model keeps the token string itself. -/
structure Session : Type where
  user_id : String
  expires : Int
  raw_jwt : String
deriving DecidableEq

/-- `Session::expired` of src/main.rs: the session is expired when
`expires <= now` (note: non-strict, unlike the strict `exp < now`
comparison in `decode_and_validate_jwt`). -/
def Session.expired (s : Session) (now : Int) : Bool :=
  s.expires ≤ now

/-- A value persisted in the sled store. bincode serialization of the
two record types is modelled abstractly as tagging: `serialize` wraps a
record in its tag and `deserialize` succeeds exactly on the right tag
(bincode round-trips encoded records and fails on foreign bytes); raw
byte blobs (the certificate material) use `blob`. -/
inductive Val : Type where
  | blob (bytes : List Nat) : Val
  | user (u : User) : Val
  | session (s : Session) : Val
deriving DecidableEq

/-- The sled database, modelled as an association list from string keys
(all keys the program uses are built from strings) to stored values. -/
abbrev Store : Type := List (String × Val)

/-- `db.get`: first binding of the key wins, matching overwrite
semantics of `kvSet`. -/
def kvGet (db : Store) (k : String) : Option Val :=
  List.lookup k db

/-- `db.set`: prepend the new binding; `kvGet` sees the latest value. -/
def kvSet (db : Store) (k : String) (v : Val) : Store :=
  (k, v) :: db

/-- Model of bincode `deserialize::<User>`. -/
def deserializeUser : Val → Option User
  | .user u => some u
  | _ => none

/-- Model of bincode `deserialize::<Session>`. -/
def deserializeSession : Val → Option Session
  | .session s => some s
  | _ => none

/-- `get_or_create_user` of src/main.rs: look up `"users/" ++ user_id`
(the `make_key!` concatenation); on a miss, build a User from the JWT
claims, persist it and return it; on a hit, deserialize and return the
stored record unchanged (a failed deserialize is the
`DeserializationError "user_bytes"` of the source; bincode serialize of
a User cannot fail in the model, so the `SerializationError` arm of the
source is never taken). The updated store is returned alongside. -/
def get_or_create_user (db : Store) (jwt : Auth0JWTPayload) :
    Except AuthError (User × Store) :=
  let user_key := "users/" ++ jwt.user_id
  match kvGet db user_key with
  | none =>
    let user : User := { user_id := jwt.user_id, email := jwt.email }
    .ok (user, kvSet db user_key (.user user))
  | some v =>
    match deserializeUser v with
    | none => .error (.DeserializationError "user_bytes")
    | some user => .ok (user, db)

/-- A browser cookie as the handlers build them: `Cookie::new` leaves
the attributes at their defaults; the session cookie sets path,
secure and http_only explicitly. -/
structure Cookie : Type where
  name : String
  value : String
  path : Option String := none
  secure : Bool := false
  http_only : Bool := false
deriving DecidableEq

/-- `cookies.get name`. -/
def getCookie (jar : List Cookie) (name : String) : Option Cookie :=
  jar.find? (fun c => c.name == name)

/-- `cookies.remove (Cookie::named name)`: the named cookie is cleared
from the jar. -/
def removeCookie (jar : List Cookie) (name : String) : List Cookie :=
  jar.filter (fun c => c.name != name)

/-- `cookies.add c`: the new cookie replaces any same-named one. -/
def addCookie (jar : List Cookie) (c : Cookie) : List Cookie :=
  c :: removeCookie jar c.name

/-- The HTTP statuses the callback handler can fail with. -/
inductive Status : Type where
  | BadRequest : Status
  | Forbidden : Status
  | Unauthorized : Status
  | InternalServerError : Status
deriving DecidableEq

/-- The `AuthSettings` struct of src/main.rs. -/
structure AuthSettings : Type where
  client_id : String
  client_secret : String
  redirect_uri : String
  auth0_domain : String
deriving DecidableEq

/-- The `TokenResponse` struct of src/main.rs, deserialized from the
`/oauth/token` endpoint. -/
structure TokenResponse : Type where
  access_token : String
  expires_in : Nat
  id_token : String
  token_type : String
deriving DecidableEq

/-- What the `auth0_callback` handler returns: the redirect on success,
an HTTP status on failure, or a panic (an unwrap / expect aborted the
request). -/
inductive CallbackOutcome : Type where
  | success (redirect : String) : CallbackOutcome
  | failure (status : Status) : CallbackOutcome
  | panic : CallbackOutcome
deriving DecidableEq

/-- Result of the callback handler together with its side effects: the
cookie jar after the mutations the handler performed and the store after
its writes. -/
structure CallbackResult : Type where
  outcome : CallbackOutcome
  jar : List Cookie
  db : Store
deriving DecidableEq

/-- The status the closure on the `get_or_create_user` error path of
`auth0_callback` produces: the Rust code downcasts the error and maps
`MalformedJWT` to BadRequest and everything else to
InternalServerError. -/
def userErrStatus : AuthError → Status
  | .MalformedJWT _ => .BadRequest
  | _ => .InternalServerError

/-- `auth0_callback` of src/main.rs. Inputs standing for external
collaborators: `hexDigest` models `hex_digest(SHA256, ·)` applied to the
token bytes; `resp` is the already-deserialized `/oauth/token` response
(the Rust code unwraps the exchange, so transport failures panic before
this model's scope and `_code` only feeds that exchange); `decodeResult`
is the frank_jwt outcome for `resp.id_token` against the stored public
key. The body follows the source line by line: state-cookie check
(mismatch returns Forbidden before any cookie is removed; a missing
cookie returns BadRequest), removal of the state cookie, lookup of
`jwt_pub_key_pem` (unwrap panics when absent), JWT validation (any error
becomes Unauthorized), user get-or-create (errors map through
`userErrStatus`), then the session record is stored under
`"sessions/" ++ hexDigest id_token` with `expires` set to the payload's
`exp` and the session cookie (path "/", secure, http_only) is added
before redirecting to "/loggedin". -/
def auth0_callback (hexDigest : String → String) (_code : String)
    (state : String) (jar : List Cookie) (db : Store)
    (settings : AuthSettings) (resp : TokenResponse)
    (decodeResult : Option JValue) (now : Int) : CallbackResult :=
  match getCookie jar "state" with
  | some cookie =>
    if state ≠ cookie.value then
      { outcome := .failure .Forbidden, jar := jar, db := db }
    else
      let jar1 := removeCookie jar "state"
      match kvGet db "jwt_pub_key_pem" with
      | none => { outcome := .panic, jar := jar1, db := db }
      | some _ =>
        match decode_and_validate_jwt decodeResult resp.id_token
            settings.client_id settings.auth0_domain now with
        | .panic => { outcome := .panic, jar := jar1, db := db }
        | .err _ =>
          { outcome := .failure .Unauthorized, jar := jar1, db := db }
        | .ok payload =>
          match get_or_create_user db payload with
          | .error e =>
            { outcome := .failure (userErrStatus e), jar := jar1, db := db }
          | .ok (user, db1) =>
            let hashed_jwt := hexDigest resp.id_token
            let new_session : Session :=
              { user_id := user.user_id, expires := payload.exp,
                raw_jwt := resp.id_token }
            let db2 := kvSet db1 ("sessions/" ++ hashed_jwt)
              (.session new_session)
            let jar2 := addCookie jar1
              { name := "session", value := hashed_jwt, path := some "/",
                secure := true, http_only := true }
            { outcome := .success "/loggedin", jar := jar2, db := db2 }
  | none => { outcome := .failure .BadRequest, jar := jar, db := db }

/-- `random_state_string` of src/main.rs: takes the first 7 samples of
the rand Alphanumeric sampler (modelled as the stream `sample`) and
collects them into a string. -/
def random_state_string (sample : Nat → Char) : String :=
  String.mk ((List.range 7).map sample)

/-- Membership of a character in the rand crate's Alphanumeric
distribution: uppercase letters, lowercase letters and digits. -/
def isAlphanumericChar (c : Char) : Bool :=
  (decide ('A' ≤ c) && decide (c ≤ 'Z')) ||
  (decide ('a' ≤ c) && decide (c ≤ 'z')) ||
  (decide ('0' ≤ c) && decide (c ≤ '9'))

/-- What the `FromRequest` guard for `User` can produce. `failure`
stands for Rocket's `Outcome::Failure`, which the source never
constructs; `panic` stands for an `expect` aborting the request. -/
inductive GuardOutcome : Type where
  | success (u : User) : GuardOutcome
  | forward : GuardOutcome
  | failure : GuardOutcome
  | panic : GuardOutcome
deriving DecidableEq

/-- `User::from_request` of src/main.rs: read the session cookie
(its value parses to String infallibly); no cookie forwards; otherwise
look up `"sessions/" ++ session_id` — a missing record forwards, a
record that fails to deserialize panics (`expect`), an expired session
forwards; then look up `"users/" ++ user_id` — missing forwards,
undeserializable panics, otherwise the guard succeeds with the user. -/
def user_from_request (jar : List Cookie) (db : Store) (now : Int) :
    GuardOutcome :=
  match getCookie jar "session" with
  | none => .forward
  | some cookie =>
    let session_id := cookie.value
    match kvGet db ("sessions/" ++ session_id) with
    | some v =>
      match deserializeSession v with
      | none => .panic
      | some sess =>
        if sess.expired now then .forward
        else
          match kvGet db ("users/" ++ sess.user_id) with
          | some uv =>
            match deserializeUser uv with
            | none => .panic
            | some user => .success user
          | none => .forward
    | none => .forward

/-! Helper lemmas about the store and the cookie jar. -/

lemma kvGet_kvSet_self (db : Store) (k : String) (v : Val) :
    kvGet (kvSet db k v) k = some v := by
  simp [kvGet, kvSet, List.lookup]

lemma getCookie_removeCookie_self (jar : List Cookie) (n : String) :
    getCookie (removeCookie jar n) n = none := by
  rw [getCookie, removeCookie, List.find?_eq_none]
  intro c hc
  have h2 := (List.mem_filter.mp hc).2
  simp at h2 ⊢
  exact h2

lemma getCookie_removeCookie_none (jar : List Cookie) (m n : String)
    (h : getCookie jar n = none) :
    getCookie (removeCookie jar m) n = none := by
  rw [getCookie, removeCookie, List.find?_eq_none]
  intro c hc
  rw [getCookie, List.find?_eq_none] at h
  exact h c (List.mem_filter.mp hc).1

lemma getCookie_addCookie_self (jar : List Cookie) (c : Cookie) :
    getCookie (addCookie jar c) c.name = some c := by
  simp [getCookie, addCookie, List.find?]

lemma getCookie_addCookie_none (jar : List Cookie) (c : Cookie) (n : String)
    (hne : c.name ≠ n) (h : getCookie jar n = none) :
    getCookie (addCookie jar c) n = none := by
  simp only [getCookie, addCookie, List.find?]
  rcases hb : (c.name == n) with _ | _
  · exact getCookie_removeCookie_none jar c.name n h
  · exact absurd (by simpa using hb) hne

/-! Helper lemmas about `Auth0JWTPayload.from_json`. -/

lemma from_json_absent (json : JValue)
    (h : json.get "email" = none ∨ json.get "user_id" = none ∨
      json.get "exp" = none ∨ json.get "iss" = none ∨
      json.get "aud" = none) :
    Auth0JWTPayload.from_json json = .err (.MalformedJWT (jsonRepr json)) := by
  unfold Auth0JWTPayload.from_json
  split
  · rcases h with h | h | h | h | h <;> simp_all
  · rfl

lemma from_json_present (json e u x i a : JValue)
    (he : json.get "email" = some e) (hu : json.get "user_id" = some u)
    (hx : json.get "exp" = some x) (hi : json.get "iss" = some i)
    (ha : json.get "aud" = some a) :
    Auth0JWTPayload.from_json json = .panic ∨
    ∃ p, Auth0JWTPayload.from_json json = .ok p := by
  simp only [Auth0JWTPayload.from_json, he, hu, hx, hi, ha]
  split
  · exact Or.inr ⟨_, rfl⟩
  · exact Or.inl rfl

/-- Claim C1, counterexample. The claim says every token with
`exp ≤ now` fails with `Expired` regardless of signature validity. Both
parts fail on the code: a token whose `exp` equals the current time
passes the strict `exp < now` check and validates successfully, and a
token whose signature check fails yields `MalformedJWT`, not `Expired`,
whatever its `exp`. Shown at `now = 100` with a payload whose `exp` is
`100`. -/
theorem decode_jwt_expired_cex :
    decode_and_validate_jwt
      (some (.obj [("email", .str "e"), ("user_id", .str "u"),
        ("exp", .num 100), ("iss", .str "https://d/"), ("aud", .str "a")]))
      "tok" "a" "d" 100
      = .ok { email := "e", user_id := "u", exp := 100,
              iss := "https://d/", aud := "a" } ∧
    decode_and_validate_jwt none "tok" "a" "d" 100
      = .err (.MalformedJWT "tok") := by
  constructor
  · decide
  · decide

/-- Claim C1, amended: for every token whose signature verifies and
whose claims parse, if its `exp` claim is strictly less than the current
time then `decode_and_validate_jwt` fails with `Expired` (a token with
`exp` equal to the current time is accepted, and a token failing the
signature check fails with `MalformedJWT` instead). -/
theorem decode_jwt_expired_amended (json : JValue)
    (payload : Auth0JWTPayload) (jwt aud auth0_domain : String) (now : Int)
    (hparse : Auth0JWTPayload.from_json json = .ok payload)
    (hexp : payload.exp < now) :
    decode_and_validate_jwt (some json) jwt aud auth0_domain now
      = .err .Expired := by
  simp [decode_and_validate_jwt, hparse, hexp]

/-- Claim C1, witness for the amended theorem at a concrete input. -/
theorem decode_jwt_expired_amended_witness :
    Auth0JWTPayload.from_json
      (.obj [("email", .str "e"), ("user_id", .str "u"),
        ("exp", .num 50), ("iss", .str "https://d/"), ("aud", .str "a")])
      = .ok { email := "e", user_id := "u", exp := 50,
              iss := "https://d/", aud := "a" } ∧
    (50 : Int) < 100 ∧
    decode_and_validate_jwt
      (some (.obj [("email", .str "e"), ("user_id", .str "u"),
        ("exp", .num 50), ("iss", .str "https://d/"), ("aud", .str "a")]))
      "tok" "a" "d" 100 = .err .Expired :=
  ⟨by decide, by decide,
    decode_jwt_expired_amended
      (.obj [("email", .str "e"), ("user_id", .str "u"),
        ("exp", .num 50), ("iss", .str "https://d/"), ("aud", .str "a")])
      { email := "e", user_id := "u", exp := 50,
        iss := "https://d/", aud := "a" }
      "tok" "a" "d" 100 (by decide) (by decide)⟩

/-- Claim C5: `decode_and_validate_jwt` checks in source order. A failed
signature check yields `MalformedJWT` before anything else is looked at;
a missing required claim yields `MalformedJWT`; then, for a parsed
payload: expiry is checked first (strict comparison against `now`, no
clock-skew tolerance — `exp < now` rejects, `exp ≥ now` passes on to the
audience check regardless of audience and issuer), then audience, then
issuer against exactly `"https://" ++ domain ++ "/"`; when every check
passes the decoded payload is returned unchanged. -/
theorem decode_jwt_check_order (jwt aud auth0_domain : String) (now : Int) :
    (decode_and_validate_jwt none jwt aud auth0_domain now
      = .err (.MalformedJWT jwt)) ∧
    (∀ json : JValue,
      (json.get "email" = none ∨ json.get "user_id" = none ∨
        json.get "exp" = none ∨ json.get "iss" = none ∨
        json.get "aud" = none) →
      decode_and_validate_jwt (some json) jwt aud auth0_domain now
        = .err (.MalformedJWT (jsonRepr json))) ∧
    (∀ (json : JValue) (payload : Auth0JWTPayload),
      Auth0JWTPayload.from_json json = .ok payload →
      (payload.exp < now →
        decode_and_validate_jwt (some json) jwt aud auth0_domain now
          = .err .Expired) ∧
      (¬ payload.exp < now → payload.aud ≠ aud →
        decode_and_validate_jwt (some json) jwt aud auth0_domain now
          = .err .AudienceMismatch) ∧
      (¬ payload.exp < now → payload.aud = aud →
        payload.iss ≠ "https://" ++ auth0_domain ++ "/" →
        decode_and_validate_jwt (some json) jwt aud auth0_domain now
          = .err .IssuerMismatch) ∧
      (¬ payload.exp < now → payload.aud = aud →
        payload.iss = "https://" ++ auth0_domain ++ "/" →
        decode_and_validate_jwt (some json) jwt aud auth0_domain now
          = .ok payload)) := by
  refine ⟨rfl, ?_, ?_⟩
  · intro json h
    simp [decode_and_validate_jwt, from_json_absent json h]
  · intro json payload hparse
    refine ⟨?_, ?_, ?_, ?_⟩
    · intro hexp
      simp [decode_and_validate_jwt, hparse, hexp]
    · intro hexp haud
      simp [decode_and_validate_jwt, hparse, hexp, haud]
    · intro hexp haud hiss
      simp [decode_and_validate_jwt, hparse, hexp, haud, hiss]
    · intro hexp haud hiss
      simp [decode_and_validate_jwt, hparse, hexp, haud, hiss]

/-- Claim C5, witness: the check-order theorem applied at a concrete
token whose claims all pass, and at one failing only the audience
check. -/
theorem decode_jwt_check_order_witness :
    decode_and_validate_jwt
      (some (.obj [("email", .str "e"), ("user_id", .str "u"),
        ("exp", .num 200), ("iss", .str "https://d/"), ("aud", .str "a")]))
      "tok" "a" "d" 100
      = .ok { email := "e", user_id := "u", exp := 200,
              iss := "https://d/", aud := "a" } ∧
    decode_and_validate_jwt
      (some (.obj [("email", .str "e"), ("user_id", .str "u"),
        ("exp", .num 200), ("iss", .str "https://d/"), ("aud", .str "b")]))
      "tok" "a" "d" 100
      = .err .AudienceMismatch :=
  ⟨(((decode_jwt_check_order "tok" "a" "d" 100).2.2 _
      { email := "e", user_id := "u", exp := 200,
        iss := "https://d/", aud := "a" } (by decide)).2.2.2
      (by decide) (by decide) (by decide)),
   (((decode_jwt_check_order "tok" "a" "d" 100).2.2 _
      { email := "e", user_id := "u", exp := 200,
        iss := "https://d/", aud := "b" } (by decide)).2.1
      (by decide) (by decide))⟩

/-- Claim C10: `Auth0JWTPayload.from_json` returns `MalformedJWT`
exactly when at least one of the five fields is absent from the JSON;
and it is not total on inputs with all five fields present: a present
field of the wrong JSON type (here a string-valued `exp`) panics via
`unwrap` instead of returning an error. -/
theorem from_json_malformed_iff_and_panic :
    (∀ json : JValue,
      (∃ r, Auth0JWTPayload.from_json json = .err (.MalformedJWT r)) ↔
      (json.get "email" = none ∨ json.get "user_id" = none ∨
        json.get "exp" = none ∨ json.get "iss" = none ∨
        json.get "aud" = none)) ∧
    Auth0JWTPayload.from_json
      (.obj [("email", .str "e"), ("user_id", .str "u"),
        ("exp", .str "not-a-number"), ("iss", .str "i"), ("aud", .str "a")])
      = .panic := by
  constructor
  · intro json
    constructor
    · rintro ⟨r, hr⟩
      by_contra habs
      push_neg at habs
      obtain ⟨h1, h2, h3, h4, h5⟩ := habs
      rw [Option.ne_none_iff_exists'] at h1 h2 h3 h4 h5
      obtain ⟨e, he⟩ := h1
      obtain ⟨u, hu⟩ := h2
      obtain ⟨x, hx⟩ := h3
      obtain ⟨i, hi⟩ := h4
      obtain ⟨a, ha⟩ := h5
      rcases from_json_present json e u x i a he hu hx hi ha with h | ⟨p, hp⟩
      · rw [h] at hr
        exact RustResult.noConfusion hr
      · rw [hp] at hr
        exact RustResult.noConfusion hr
    · intro h
      exact ⟨_, from_json_absent json h⟩
  · decide

/-- Claim C10, witness: the characterization applied at the empty
object, where every field is absent. -/
theorem from_json_malformed_witness :
    ∃ r, Auth0JWTPayload.from_json (.obj []) = .err (.MalformedJWT r) :=
  (from_json_malformed_iff_and_panic.1 (.obj [])).mpr (Or.inl rfl)

/-- Claim C7: `get_or_create_user` is idempotent with first-write-wins
semantics. When two successive calls for the same `user_id` both
succeed, the second returns exactly the record the first returned
(identical `user_id` and email — a different email in the second JWT is
neither stored nor returned) and leaves the store untouched; after the
first call the stored record under `"users/" ++ user_id` is that same
record, and when the first call created it fresh its email is the first
JWT's email. -/
theorem get_or_create_user_idempotent (db : Store)
    (j1 j2 : Auth0JWTPayload) (u1 u2 : User) (db1 db2 : Store)
    (hid : j2.user_id = j1.user_id)
    (h1 : get_or_create_user db j1 = .ok (u1, db1))
    (h2 : get_or_create_user db1 j2 = .ok (u2, db2)) :
    u2 = u1 ∧ db2 = db1 ∧
    kvGet db1 ("users/" ++ j1.user_id) = some (.user u1) ∧
    (kvGet db ("users/" ++ j1.user_id) = none →
      u1 = { user_id := j1.user_id, email := j1.email }) := by
  rcases hk : kvGet db ("users/" ++ j1.user_id) with _ | v
  · -- first call misses: it creates and stores the user
    simp only [get_or_create_user, hk, Except.ok.injEq, Prod.mk.injEq] at h1
    obtain ⟨hu1, hdb1⟩ := h1
    have hget : kvGet db1 ("users/" ++ j1.user_id) = some (.user u1) := by
      rw [← hdb1, ← hu1]
      exact kvGet_kvSet_self db _ _
    simp only [get_or_create_user, hid, hget, deserializeUser,
      Except.ok.injEq, Prod.mk.injEq] at h2
    obtain ⟨hu2, hdb2⟩ := h2
    exact ⟨hu2.symm, hdb2.symm, hget, fun _ => hu1.symm⟩
  · -- first call hits: the stored record is returned unchanged
    simp only [get_or_create_user, hk] at h1
    rcases hv : deserializeUser v with _ | u
    · simp only [hv] at h1
      exact absurd h1 (by simp)
    · simp only [hv, Except.ok.injEq, Prod.mk.injEq] at h1
      obtain ⟨hu1, hdb1⟩ := h1
      have hvu : v = .user u1 := by
        cases v with
        | blob bs => simp [deserializeUser] at hv
        | user w =>
          simp only [deserializeUser, Option.some_inj] at hv
          rw [hv, hu1]
        | session s => simp [deserializeUser] at hv
      have hget : kvGet db1 ("users/" ++ j1.user_id) = some (.user u1) := by
        rw [← hdb1, hk, hvu]
      simp only [get_or_create_user, hid, hget, deserializeUser,
        Except.ok.injEq, Prod.mk.injEq] at h2
      obtain ⟨hu2, hdb2⟩ := h2
      refine ⟨hu2.symm, hdb2.symm, hget, fun habs => ?_⟩
      exact absurd habs (by simp)

/-- Claim C7, witness: two concrete calls, the second with a different
email for the same user id; the returned record and the store are those
of the first call. -/
theorem get_or_create_user_idempotent_witness :
    ({ user_id := "u1", email := "a" } : User)
        = { user_id := "u1", email := "a" } ∧
    kvSet [] ("users/" ++ "u1") (.user { user_id := "u1", email := "a" })
        = kvSet [] ("users/" ++ "u1") (.user { user_id := "u1", email := "a" }) ∧
    kvGet (kvSet [] ("users/" ++ "u1")
        (.user { user_id := "u1", email := "a" })) ("users/" ++ "u1")
      = some (.user { user_id := "u1", email := "a" }) ∧
    (kvGet [] ("users/" ++ "u1") = none →
      ({ user_id := "u1", email := "a" } : User)
        = { user_id := "u1", email := "a" }) :=
  get_or_create_user_idempotent []
    { email := "a", user_id := "u1", exp := 0, iss := "i", aud := "d" }
    { email := "b", user_id := "u1", exp := 0, iss := "i", aud := "d" }
    _ _ _ _ (by decide) (by rfl) (by rfl)

/-- Claim C2, counterexample. The claim says the guard signals Forward
whenever the referenced user record is missing or inconsistent. For an
unexpired session whose user record is present but does not deserialize
as a User, the source's `expect` panics (aborting the request) instead
of forwarding. -/
theorem guard_forward_cex :
    user_from_request [⟨"session", "sid", none, false, false⟩]
      [("sessions/sid", .session ⟨"u", 1000, "tok"⟩),
       ("users/u", .blob [])] 0
      = .panic ∧
    user_from_request [⟨"session", "sid", none, false, false⟩]
      [("sessions/sid", .session ⟨"u", 1000, "tok"⟩),
       ("users/u", .blob [])] 0
      ≠ .forward := by
  constructor
  · decide
  · decide

/-- Claim C2, amended: the guard never produces Rocket's hard-error
outcome (`Outcome::Failure`); an absent session cookie, an absent
session record, an expired session, or a missing user record each
signal Forward. (A session or user record that is present but fails to
deserialize panics via `expect` instead of forwarding.) -/
theorem guard_forward_amended (jar : List Cookie) (db : Store) (now : Int) :
    user_from_request jar db now ≠ .failure ∧
    (getCookie jar "session" = none →
      user_from_request jar db now = .forward) ∧
    (∀ c : Cookie, getCookie jar "session" = some c →
      kvGet db ("sessions/" ++ c.value) = none →
      user_from_request jar db now = .forward) ∧
    (∀ (c : Cookie) (s : Session), getCookie jar "session" = some c →
      kvGet db ("sessions/" ++ c.value) = some (.session s) →
      s.expired now = true →
      user_from_request jar db now = .forward) ∧
    (∀ (c : Cookie) (s : Session), getCookie jar "session" = some c →
      kvGet db ("sessions/" ++ c.value) = some (.session s) →
      s.expired now = false →
      kvGet db ("users/" ++ s.user_id) = none →
      user_from_request jar db now = .forward) := by
  refine ⟨?_, ?_, ?_, ?_, ?_⟩
  · rcases hc : getCookie jar "session" with _ | c
    · simp [user_from_request, hc]
    · rcases hv : kvGet db ("sessions/" ++ c.value) with _ | v
      · simp [user_from_request, hc, hv]
      · rcases v with bs | u | s
        · simp [user_from_request, hc, hv, deserializeSession]
        · simp [user_from_request, hc, hv, deserializeSession]
        · by_cases hexp : s.expired now = true
          · simp [user_from_request, hc, hv, deserializeSession, hexp]
          · rcases hu : kvGet db ("users/" ++ s.user_id) with _ | uv
            · simp [user_from_request, hc, hv, deserializeSession, hexp, hu]
            · rcases uv with bs2 | u2 | s2 <;>
                simp [user_from_request, hc, hv, deserializeSession,
                  deserializeUser, hexp, hu]
  · intro h
    simp [user_from_request, h]
  · intro c hc hdb
    simp [user_from_request, hc, hdb]
  · intro c s hc hdb hexp
    simp [user_from_request, hc, hdb, deserializeSession, hexp]
  · intro c s hc hdb hexp huser
    simp [user_from_request, hc, hdb, deserializeSession, hexp, huser]

/-- Claim C2, witness: the amended theorem applied at concrete inputs —
the empty jar forwards and is not a hard error, and an expired session
forwards. -/
theorem guard_forward_amended_witness :
    user_from_request [] [] 0 ≠ .failure ∧
    user_from_request [] [] 0 = .forward ∧
    user_from_request [⟨"session", "sid", none, false, false⟩]
      [("sessions/sid", .session ⟨"u", 0, "tok"⟩)] 5
      = .forward :=
  ⟨(guard_forward_amended [] [] 0).1,
   (guard_forward_amended [] [] 0).2.1 rfl,
   (guard_forward_amended [⟨"session", "sid", none, false, false⟩]
      [("sessions/sid", .session ⟨"u", 0, "tok"⟩)] 5).2.2.2.1
      ⟨"session", "sid", none, false, false⟩ ⟨"u", 0, "tok"⟩
      (by rfl) (by rfl) (by decide)⟩

/-- Claim C3, counterexample. The claim says the CSRF state cookie is
cleared on every outcome including the state-mismatch Forbidden path.
On a state mismatch the source returns `Forbidden` before the
`cookies.remove` line runs, so the state cookie is still in the jar. -/
theorem callback_state_cookie_cex :
    (auth0_callback (fun _ => "h") "code" "b"
        [⟨"state", "a", none, false, false⟩] [] ⟨"cid", "sec", "ru", "d"⟩
        ⟨"at", 0, "idt", "tt"⟩ none 0).outcome = .failure .Forbidden ∧
    getCookie (auth0_callback (fun _ => "h") "code" "b"
        [⟨"state", "a", none, false, false⟩] [] ⟨"cid", "sec", "ru", "d"⟩
        ⟨"at", 0, "idt", "tt"⟩ none 0).jar "state"
      = some ⟨"state", "a", none, false, false⟩ := by
  constructor
  · decide
  · decide

/-- Claim C3, amended: the state cookie is cleared on every outcome
that passes the state check (success and all post-exchange failures);
on the state-mismatch Forbidden path the handler returns with the jar
untouched, so the state cookie survives, and on the missing-cookie
BadRequest path there is no state cookie to clear. -/
theorem callback_state_cookie_amended (hexDigest : String → String)
    (code state : String) (jar : List Cookie) (db : Store)
    (settings : AuthSettings) (resp : TokenResponse)
    (decodeResult : Option JValue) (now : Int) (c : Cookie)
    (hc : getCookie jar "state" = some c) :
    (state = c.value →
      getCookie (auth0_callback hexDigest code state jar db settings resp
          decodeResult now).jar "state" = none) ∧
    (state ≠ c.value →
      (auth0_callback hexDigest code state jar db settings resp
          decodeResult now).jar = jar ∧
      (auth0_callback hexDigest code state jar db settings resp
          decodeResult now).outcome = .failure .Forbidden) := by
  constructor
  · intro hmatch
    have hnn : ¬ (state ≠ c.value) := by simp [hmatch]
    simp only [auth0_callback, hc, hnn, ite_false, if_false]
    split
    · exact getCookie_removeCookie_self jar "state"
    · split
      · exact getCookie_removeCookie_self jar "state"
      · exact getCookie_removeCookie_self jar "state"
      · split
        · exact getCookie_removeCookie_self jar "state"
        · refine getCookie_addCookie_none _ _ _ ?_
            (getCookie_removeCookie_self jar "state")
          simp
  · intro hne
    constructor
    · simp [auth0_callback, hc, hne]
    · simp [auth0_callback, hc, hne]

/-- Claim C3, witness for the amended theorem: with a matching state the
returned jar no longer holds the state cookie; with a mismatching state
the jar is untouched. -/
theorem callback_state_cookie_amended_witness :
    getCookie (auth0_callback (fun _ => "h") "code" "a"
        [⟨"state", "a", none, false, false⟩] [] ⟨"cid", "sec", "ru", "d"⟩
        ⟨"at", 0, "idt", "tt"⟩ none 0).jar "state" = none ∧
    (auth0_callback (fun _ => "h") "code" "b"
        [⟨"state", "a", none, false, false⟩] [] ⟨"cid", "sec", "ru", "d"⟩
        ⟨"at", 0, "idt", "tt"⟩ none 0).jar
      = [⟨"state", "a", none, false, false⟩] :=
  ⟨(callback_state_cookie_amended (fun _ => "h") "code" "a"
      [⟨"state", "a", none, false, false⟩] [] ⟨"cid", "sec", "ru", "d"⟩
      ⟨"at", 0, "idt", "tt"⟩ none 0 ⟨"state", "a", none, false, false⟩
      rfl).1 rfl,
   ((callback_state_cookie_amended (fun _ => "h") "code" "b"
      [⟨"state", "a", none, false, false⟩] [] ⟨"cid", "sec", "ru", "d"⟩
      ⟨"at", 0, "idt", "tt"⟩ none 0 ⟨"state", "a", none, false, false⟩
      rfl).2 (by decide)).1⟩

/-- Claim C4, counterexample. The claim says structurally malformed
tokens map to BadRequest. A token failing the structural/signature
decode (`decodeResult = none`, an arbitrarily malformed token) is
mapped by the source's `map_err` on `decode_and_validate_jwt` to
`Unauthorized`, not BadRequest. -/
theorem callback_status_cex :
    (auth0_callback (fun _ => "h") "code" "a"
        [⟨"state", "a", none, false, false⟩]
        [("jwt_pub_key_pem", .blob [])] ⟨"cid", "sec", "ru", "d"⟩
        ⟨"at", 0, "idt", "tt"⟩ none 0).outcome = .failure .Unauthorized ∧
    (auth0_callback (fun _ => "h") "code" "a"
        [⟨"state", "a", none, false, false⟩]
        [("jwt_pub_key_pem", .blob [])] ⟨"cid", "sec", "ru", "d"⟩
        ⟨"at", 0, "idt", "tt"⟩ none 0).outcome ≠ .failure .BadRequest := by
  constructor
  · decide
  · decide

/-- Claim C4, amended: every failure after the token exchange maps to a
coarse HTTP status with no internal detail — every
`decode_and_validate_jwt` failure (expired, audience or issuer
mismatch, and also structurally malformed tokens) maps to Unauthorized,
and `get_or_create_user` failures map through the source's downcast
(BadRequest for `MalformedJWT`, InternalServerError otherwise); since
`get_or_create_user` only ever fails with a deserialization error, its
failures in fact always map to InternalServerError. -/
theorem callback_status_amended (hexDigest : String → String)
    (code state : String) (jar : List Cookie) (db : Store)
    (settings : AuthSettings) (resp : TokenResponse)
    (decodeResult : Option JValue) (now : Int) (c : Cookie) (pk : Val)
    (hc : getCookie jar "state" = some c) (hmatch : state = c.value)
    (hpk : kvGet db "jwt_pub_key_pem" = some pk) :
    (∀ e : AuthError, decode_and_validate_jwt decodeResult resp.id_token
        settings.client_id settings.auth0_domain now = .err e →
      (auth0_callback hexDigest code state jar db settings resp
          decodeResult now).outcome = .failure .Unauthorized) ∧
    (∀ (payload : Auth0JWTPayload) (e : AuthError),
      decode_and_validate_jwt decodeResult resp.id_token
        settings.client_id settings.auth0_domain now = .ok payload →
      get_or_create_user db payload = .error e →
      (auth0_callback hexDigest code state jar db settings resp
          decodeResult now).outcome = .failure (userErrStatus e)) ∧
    (∀ (db' : Store) (payload : Auth0JWTPayload) (e : AuthError),
      get_or_create_user db' payload = .error e →
      userErrStatus e = .InternalServerError) := by
  have hnn : ¬ (state ≠ c.value) := by simp [hmatch]
  refine ⟨?_, ?_, ?_⟩
  · intro e he
    simp [auth0_callback, hc, hnn, hpk, he]
  · intro payload e hok herr
    simp [auth0_callback, hc, hnn, hpk, hok, herr]
  · intro db' payload e he
    rcases hk : kvGet db' ("users/" ++ payload.user_id) with _ | v
    · simp [get_or_create_user, hk] at he
    · rcases hv : deserializeUser v with _ | u
      · simp [get_or_create_user, hk, hv] at he
        rw [← he]
        rfl
      · simp [get_or_create_user, hk, hv] at he

/-- Claim C4, witness for the amended theorem: a malformed token at a
concrete input maps to Unauthorized, and a store holding undeserializable
user bytes makes `get_or_create_user` fail with an error mapping to
InternalServerError. -/
theorem callback_status_amended_witness :
    (auth0_callback (fun _ => "h") "code" "a"
        [⟨"state", "a", none, false, false⟩]
        [("jwt_pub_key_pem", .blob [])] ⟨"cid", "sec", "ru", "d"⟩
        ⟨"at", 0, "idt", "tt"⟩ none 0).outcome = .failure .Unauthorized ∧
    userErrStatus (.DeserializationError "user_bytes")
      = .InternalServerError :=
  ⟨(callback_status_amended (fun _ => "h") "code" "a"
      [⟨"state", "a", none, false, false⟩]
      [("jwt_pub_key_pem", .blob [])] ⟨"cid", "sec", "ru", "d"⟩
      ⟨"at", 0, "idt", "tt"⟩ none 0 ⟨"state", "a", none, false, false⟩
      (.blob []) rfl rfl rfl).1 (.MalformedJWT "idt") rfl,
   (callback_status_amended (fun _ => "h") "code" "a"
      [⟨"state", "a", none, false, false⟩]
      [("jwt_pub_key_pem", .blob [])] ⟨"cid", "sec", "ru", "d"⟩
      ⟨"at", 0, "idt", "tt"⟩ none 0 ⟨"state", "a", none, false, false⟩
      (.blob []) rfl rfl rfl).2.2
      [("users/u", .blob [])]
      { email := "e", user_id := "u", exp := 0, iss := "i", aud := "a" }
      (.DeserializationError "user_bytes") rfl⟩

/-- Claim C6: on a successful login the callback persists the Session
under `"sessions/" ++ hexDigest id_token` (the hex SHA-256 of the raw
ID token), the stored record's `expires` equals the validated payload's
`exp` claim and its `user_id` is the resolved user's id, and the session
cookie issued carries exactly that hex digest as its value. -/
theorem callback_session_persist (hexDigest : String → String)
    (code state : String) (jar : List Cookie) (db : Store)
    (settings : AuthSettings) (resp : TokenResponse)
    (decodeResult : Option JValue) (now : Int) (c : Cookie) (pk : Val)
    (payload : Auth0JWTPayload) (user : User) (db1 : Store)
    (hc : getCookie jar "state" = some c) (hmatch : state = c.value)
    (hpk : kvGet db "jwt_pub_key_pem" = some pk)
    (hdec : decode_and_validate_jwt decodeResult resp.id_token
      settings.client_id settings.auth0_domain now = .ok payload)
    (huser : get_or_create_user db payload = .ok (user, db1)) :
    kvGet (auth0_callback hexDigest code state jar db settings resp
        decodeResult now).db ("sessions/" ++ hexDigest resp.id_token)
      = some (.session { user_id := user.user_id,
                         expires := payload.exp,
                         raw_jwt := resp.id_token }) ∧
    getCookie (auth0_callback hexDigest code state jar db settings resp
        decodeResult now).jar "session"
      = some { name := "session", value := hexDigest resp.id_token,
               path := some "/", secure := true, http_only := true } := by
  have hnn : ¬ (state ≠ c.value) := by simp [hmatch]
  constructor
  · simp [auth0_callback, hc, hnn, hpk, hdec, huser, kvGet_kvSet_self]
  · simp only [auth0_callback, hc, hnn, ite_false, if_false, hpk, hdec,
      huser]
    exact getCookie_addCookie_self _ _

/-- Claim C6, witness: a complete successful login at concrete inputs;
the stored session, its expires field and the cookie value are checked
against the digest of the token. -/
theorem callback_session_persist_witness :
    kvGet (auth0_callback (fun _ => "h") "code" "a"
        [⟨"state", "a", none, false, false⟩]
        [("jwt_pub_key_pem", .blob [])] ⟨"cid", "sec", "ru", "d"⟩
        ⟨"at", 0, "idt", "tt"⟩
        (some (.obj [("email", .str "e"), ("user_id", .str "u"),
          ("exp", .num 100), ("iss", .str "https://d/"),
          ("aud", .str "cid")])) 0).db ("sessions/" ++ "h")
      = some (.session ⟨"u", 100, "idt"⟩) ∧
    getCookie (auth0_callback (fun _ => "h") "code" "a"
        [⟨"state", "a", none, false, false⟩]
        [("jwt_pub_key_pem", .blob [])] ⟨"cid", "sec", "ru", "d"⟩
        ⟨"at", 0, "idt", "tt"⟩
        (some (.obj [("email", .str "e"), ("user_id", .str "u"),
          ("exp", .num 100), ("iss", .str "https://d/"),
          ("aud", .str "cid")])) 0).jar "session"
      = some ⟨"session", "h", some "/", true, true⟩ :=
  callback_session_persist (fun _ => "h") "code" "a"
    [⟨"state", "a", none, false, false⟩]
    [("jwt_pub_key_pem", .blob [])] ⟨"cid", "sec", "ru", "d"⟩
    ⟨"at", 0, "idt", "tt"⟩
    (some (.obj [("email", .str "e"), ("user_id", .str "u"),
      ("exp", .num 100), ("iss", .str "https://d/"), ("aud", .str "cid")]))
    0 ⟨"state", "a", none, false, false⟩ (.blob [])
    { email := "e", user_id := "u", exp := 100, iss := "https://d/",
      aud := "cid" }
    { user_id := "u", email := "e" } _ rfl rfl rfl (by decide) (by rfl)

/-- Claim C8: the callback's three outcomes — a state query parameter
differing from the state cookie value yields Forbidden; a missing state
cookie yields BadRequest; a matching state with a valid code/token flow
(public key present, token validating, user resolved) issues the
session cookie with path "/", Secure and HttpOnly set, and redirects to
the authenticated route "/loggedin". -/
theorem callback_http_statuses (hexDigest : String → String)
    (code state : String) (jar : List Cookie) (db : Store)
    (settings : AuthSettings) (resp : TokenResponse)
    (decodeResult : Option JValue) (now : Int) :
    (∀ c : Cookie, getCookie jar "state" = some c → state ≠ c.value →
      (auth0_callback hexDigest code state jar db settings resp
          decodeResult now).outcome = .failure .Forbidden) ∧
    (getCookie jar "state" = none →
      (auth0_callback hexDigest code state jar db settings resp
          decodeResult now).outcome = .failure .BadRequest) ∧
    (∀ (c : Cookie) (pk : Val) (payload : Auth0JWTPayload) (user : User)
        (db1 : Store),
      getCookie jar "state" = some c → state = c.value →
      kvGet db "jwt_pub_key_pem" = some pk →
      decode_and_validate_jwt decodeResult resp.id_token
        settings.client_id settings.auth0_domain now = .ok payload →
      get_or_create_user db payload = .ok (user, db1) →
      (auth0_callback hexDigest code state jar db settings resp
          decodeResult now).outcome = .success "/loggedin" ∧
      getCookie (auth0_callback hexDigest code state jar db settings resp
          decodeResult now).jar "session"
        = some { name := "session", value := hexDigest resp.id_token,
                 path := some "/", secure := true,
                 http_only := true }) := by
  refine ⟨?_, ?_, ?_⟩
  · intro c hc hne
    simp [auth0_callback, hc, hne]
  · intro hc
    simp [auth0_callback, hc]
  · intro c pk payload user db1 hc hmatch hpk hdec huser
    have hnn : ¬ (state ≠ c.value) := by simp [hmatch]
    constructor
    · simp [auth0_callback, hc, hnn, hpk, hdec, huser]
    · simp only [auth0_callback, hc, hnn, ite_false, if_false, hpk, hdec,
        huser]
      exact getCookie_addCookie_self _ _

/-- Claim C8, witness: the three outcomes at concrete inputs — state
mismatch gives Forbidden, missing state cookie gives BadRequest, and a
full valid flow succeeds with the attributed session cookie. -/
theorem callback_http_statuses_witness :
    (auth0_callback (fun _ => "h") "code" "b"
        [⟨"state", "a", none, false, false⟩] [] ⟨"cid", "sec", "ru", "d"⟩
        ⟨"at", 0, "idt", "tt"⟩ none 0).outcome = .failure .Forbidden ∧
    (auth0_callback (fun _ => "h") "code" "a" [] []
        ⟨"cid", "sec", "ru", "d"⟩
        ⟨"at", 0, "idt", "tt"⟩ none 0).outcome = .failure .BadRequest ∧
    (auth0_callback (fun _ => "h") "code" "a"
        [⟨"state", "a", none, false, false⟩]
        [("jwt_pub_key_pem", .blob [])] ⟨"cid", "sec", "ru", "d"⟩
        ⟨"at", 0, "idt", "tt"⟩
        (some (.obj [("email", .str "e"), ("user_id", .str "u"),
          ("exp", .num 100), ("iss", .str "https://d/"),
          ("aud", .str "cid")])) 0).outcome = .success "/loggedin" ∧
    getCookie (auth0_callback (fun _ => "h") "code" "a"
        [⟨"state", "a", none, false, false⟩]
        [("jwt_pub_key_pem", .blob [])] ⟨"cid", "sec", "ru", "d"⟩
        ⟨"at", 0, "idt", "tt"⟩
        (some (.obj [("email", .str "e"), ("user_id", .str "u"),
          ("exp", .num 100), ("iss", .str "https://d/"),
          ("aud", .str "cid")])) 0).jar "session"
      = some ⟨"session", "h", some "/", true, true⟩ := by
  refine ⟨?_, ?_, ?_, ?_⟩
  · exact (callback_http_statuses (fun _ => "h") "code" "b"
      [⟨"state", "a", none, false, false⟩] [] ⟨"cid", "sec", "ru", "d"⟩
      ⟨"at", 0, "idt", "tt"⟩ none 0).1
      ⟨"state", "a", none, false, false⟩ rfl (by decide)
  · exact (callback_http_statuses (fun _ => "h") "code" "a" [] []
      ⟨"cid", "sec", "ru", "d"⟩ ⟨"at", 0, "idt", "tt"⟩ none 0).2.1 rfl
  · exact ((callback_http_statuses (fun _ => "h") "code" "a"
      [⟨"state", "a", none, false, false⟩]
      [("jwt_pub_key_pem", .blob [])] ⟨"cid", "sec", "ru", "d"⟩
      ⟨"at", 0, "idt", "tt"⟩
      (some (.obj [("email", .str "e"), ("user_id", .str "u"),
        ("exp", .num 100), ("iss", .str "https://d/"),
        ("aud", .str "cid")])) 0).2.2
      ⟨"state", "a", none, false, false⟩ (.blob [])
      { email := "e", user_id := "u", exp := 100, iss := "https://d/",
        aud := "cid" }
      { user_id := "u", email := "e" } _ rfl rfl rfl (by decide)
      (by rfl)).1
  · exact ((callback_http_statuses (fun _ => "h") "code" "a"
      [⟨"state", "a", none, false, false⟩]
      [("jwt_pub_key_pem", .blob [])] ⟨"cid", "sec", "ru", "d"⟩
      ⟨"at", 0, "idt", "tt"⟩
      (some (.obj [("email", .str "e"), ("user_id", .str "u"),
        ("exp", .num 100), ("iss", .str "https://d/"),
        ("aud", .str "cid")])) 0).2.2
      ⟨"state", "a", none, false, false⟩ (.blob [])
      { email := "e", user_id := "u", exp := 100, iss := "https://d/",
        aud := "cid" }
      { user_id := "u", email := "e" } _ rfl rfl rfl (by decide)
      (by rfl)).2

/-- Claim C9: `random_state_string` returns a string of exactly 7
characters (despite the doc comment's "30 chars long"), each of which
is an output of the alphanumeric sampler: whenever the sampler only
produces alphanumeric characters, so is every character of the
result. -/
theorem random_state_string_spec (sample : Nat → Char) :
    (random_state_string sample).length = 7 ∧
    ((∀ n : Nat, isAlphanumericChar (sample n) = true) →
      ∀ ch ∈ (random_state_string sample).data,
        isAlphanumericChar ch = true) := by
  constructor
  · simp [random_state_string, String.length]
  · intro hall ch hch
    simp only [random_state_string, String.data, List.mem_map] at hch
    obtain ⟨n, _, hn⟩ := hch
    rw [← hn]
    exact hall n

/-- Claim C9, witness: the length and alphanumeric facts at a concrete
sampler. -/
theorem random_state_string_spec_witness :
    (random_state_string (fun _ => 'a')).length = 7 ∧
    ∀ ch ∈ (random_state_string (fun _ => 'a')).data,
      isAlphanumericChar ch = true :=
  ⟨(random_state_string_spec (fun _ => 'a')).1,
   (random_state_string_spec (fun _ => 'a')).2 (fun _ => by decide)⟩

end Auth0Rocket
